import Mathlib

/-
Verification of the callsites micro-utility.

The core component (src/unnamed/part_001, i.e. index.js) temporarily
installs a stack-trace formatting hook on the native Error object,
forces stack materialization by reading the stack property of a fresh
error, and restores the hook in a finally block.  A second, older
variant (quoted in the report embedded in src/benchmark.js) does the
same with a per-call closure and a non-mutating slice.

Shallow embedding choices:
- A call-site descriptor is modelled by the three accessors the code
  surface exercises: file name, line number, column number (each
  nullable in the host runtime, hence Option).
- The process-wide hook slot Error.prepareStackTrace is a field of an
  explicit Host state.  Hook values are an inductive type whose
  equality models host-level identity equality of function objects:
  the single module-level handler is one constructor, per-call
  closures of the original variant carry a fresh allocation id, and
  hooks installed by other code carry an opaque id.
- Reading the stack property of a fresh error either succeeds with the
  raw list of call-site descriptors supplied by the runtime (innermost
  frame first, the capture function itself at the head) or raises; the
  outcome is an input of the embedding, since it is produced by the
  host and not by this component.
-/

namespace Callsites

/-- A call-site descriptor: the accessor surface exercised by the code
(file name, line number, column number, each nullable in the host). -/
structure CallSite where
  fileName : Option String
  lineNumber : Option Nat
  columnNumber : Option Nat
  deriving DecidableEq, Repr

/-- A host error value, as passed to the formatting hook.  The id
models host-level identity; the component never inspects the value. -/
structure ErrVal where
  id : Nat
  deriving DecidableEq, Repr

/-- A failure raised by the host during stack materialization. -/
structure HostFailure where
  id : Nat
  deriving DecidableEq, Repr

/-- A value that can sit in the process-wide hook slot.  Equality of
this type models identity equality of function objects in the host:
handler is the single module-level prepareStackTraceHandler constant,
origClosure n is the closure allocated by the n-th call of the
original variant, thirdParty n is a hook installed by other code. -/
inductive Hook where
  | handler : Hook
  | origClosure : Nat → Hook
  | thirdParty : Nat → Hook
  deriving DecidableEq, Repr

/-- The host state visible to the component: the single global slot
for the current stack-formatting hook (none means no hook installed),
plus an allocation counter giving fresh identities to closures. -/
structure Host where
  prepareStackTrace : Option Hook
  nextId : Nat
  deriving DecidableEq, Repr

/-- JS Array.prototype.shift on a list of call sites: removes the
first element in place (a no-op on an empty array); the value returned
here is the contents of the mutated array. -/
def jsShift (callSites : List CallSite) : List CallSite :=
  match callSites with
  | [] => []
  | _ :: rest => rest

/-- JS callSites.slice(1): a fresh array holding all but the first
element (empty when the input is empty). -/
def jsSliceOne (callSites : List CallSite) : List CallSite :=
  callSites.drop 1

/-- The module-level cached hook of the optimized variant
(src/unnamed/part_001 lines 4-9): it ignores the error argument,
shifts the first element (the frame of callsites itself) off the array
in place, and returns the same, shortened array. -/
def prepareStackTraceHandler : ErrVal → List CallSite → List CallSite :=
  fun _ callSites => jsShift callSites

/-- Behavior of any hook value when invoked by the runtime.  The
handler and the per-call closures of the original variant are
translated from the source; hooks installed by other code are outside
the component and are never invoked inside the capture bracket, so
their behavior is left as the identity. -/
def applyHook (h : Hook) (e : ErrVal) (callSites : List CallSite) : List CallSite :=
  match h with
  | .handler => prepareStackTraceHandler e callSites
  | .origClosure _ => jsSliceOne callSites
  | .thirdParty _ => callSites

/-- Reading the stack property of a fresh error under host state s:
the host either raises (raw = error) or supplies the raw call-site
list and synchronously invokes the currently installed hook on it.
With no hook installed the host performs its default string formatting,
abstracted here as passing the frames through; this branch is never
reached inside the capture bracket, which installs a hook first. -/
def readStack (s : Host) (e : ErrVal) (raw : Except HostFailure (List CallSite)) :
    Except HostFailure (List CallSite) :=
  match raw with
  | .error err => .error err
  | .ok frames =>
      match s.prepareStackTrace with
      | some h => .ok (applyHook h e frames)
      | none => .ok frames

/-- The observable outcome of one run of a capture variant: the value
returned (or failure propagated), the host state after the finally
block, and the hook value that was written into the global slot. -/
structure CallsitesRun where
  result : Except HostFailure (List CallSite)
  finalState : Host
  installedHook : Hook
  deriving Repr

/-- The optimized variant (src/unnamed/part_001 lines 11-25):
retain the current hook, install the cached handler, read the stack
property of a fresh error, and restore the retained hook in a finally
block that runs on both the normal and the raising path. -/
def callsites (s : Host) (raw : Except HostFailure (List CallSite)) : CallsitesRun :=
  let originalPrepareStackTrace := s.prepareStackTrace
  let s1 : Host := { s with prepareStackTrace := some Hook.handler }
  let result := readStack s1 (ErrVal.mk 0) raw
  let s2 : Host := { s1 with prepareStackTrace := originalPrepareStackTrace }
  { result := result, finalState := s2, installedHook := Hook.handler }

/-- The original variant (quoted in the report embedded in
src/benchmark.js): retain the current hook, allocate a fresh closure
that stores callSites.slice(1) into a local and returns it, install
that closure, read the stack property of a fresh error (on success the
runtime invokes the closure, whose stored value is then returned), and
restore the retained hook in a finally block. -/
def callsitesOriginal (s : Host) (raw : Except HostFailure (List CallSite)) : CallsitesRun :=
  let underscorePrepareStackTrace := s.prepareStackTrace
  let hook := Hook.origClosure s.nextId
  let s1 : Host := { s with prepareStackTrace := some hook, nextId := s.nextId + 1 }
  let result := readStack s1 (ErrVal.mk 0) raw
  let s2 : Host := { s1 with prepareStackTrace := underscorePrepareStackTrace }
  { result := result, finalState := s2, installedHook := hook }

/-- N sequential invocations of the optimized variant from the same
call site (hence the same raw stack supplied by the host each time),
threading the host state; returns the list of results in order. -/
def callsitesN : Nat → Host → Except HostFailure (List CallSite) →
    List (Except HostFailure (List CallSite)) × Host
  | 0, s, _ => ([], s)
  | n + 1, s, raw =>
      let r := callsites s raw
      let rest := callsitesN n r.finalState raw
      (r.result :: rest.1, rest.2)

/-- Shifting off the first element agrees with dropping one element. -/
theorem jsShift_eq_drop (l : List CallSite) : jsShift l = l.drop 1 := by
  cases l <;> rfl

/-- On a successful stack read, the optimized variant returns the raw
frame list with its first element shifted off. -/
theorem callsites_result_ok (s : Host) (frames : List CallSite) :
    (callsites s (.ok frames)).result = .ok (jsShift frames) := rfl

/-- On a failing stack read, the optimized variant propagates the failure. -/
theorem callsites_result_error (s : Host) (e : HostFailure) :
    (callsites s (.error e)).result = .error e := rfl

/-- The finally block restores the slot, so the whole host state is
unchanged by a run of the optimized variant. -/
theorem callsites_finalState_eq (s : Host) (raw : Except HostFailure (List CallSite)) :
    (callsites s raw).finalState = s := rfl

/-- The list of results of n sequential runs is n copies of the result
of a single run, since a run leaves the host state unchanged and its
result depends only on the raw stack supplied by the host. -/
theorem callsitesN_fst (n : Nat) (s : Host) (raw : Except HostFailure (List CallSite)) :
    (callsitesN n s raw).1 = List.replicate n ((callsites s raw).result) := by
  induction n generalizing s with
  | zero => rfl
  | succ n ih =>
      show (callsites s raw).result ::
          (callsitesN n (callsites s raw).finalState raw).1 = _
      rw [callsites_finalState_eq, ih, List.replicate]

/-- Claim C1: invoking capture directly from a function F (raw stack:
the frame of capture itself, then the frame of F, then the rest)
returns a snapshot whose element 0 is the call site inside F, and the
own frame of capture, which occurs only at the head of the raw stack,
appears in no element of the returned sequence. -/
theorem capture_head_is_caller_and_own_frame_excluded
    (s : Host) (capFrame fFrame : CallSite) (rest : List CallSite)
    (h : capFrame ∉ fFrame :: rest) :
    ∃ l, (callsites s (.ok (capFrame :: fFrame :: rest))).result = .ok l ∧
      l.head? = some fFrame ∧ capFrame ∉ l :=
  ⟨fFrame :: rest, rfl, rfl, h⟩

/-- Witness for C1 at a concrete host state and raw stack. -/
theorem capture_head_is_caller_and_own_frame_excluded_witness :
    ∃ l, (callsites ⟨none, 0⟩ (.ok (⟨some "index.js", some 5, some 9⟩ ::
        ⟨some "a.js", some 2, some 3⟩ :: []))).result = .ok l ∧
      l.head? = some ⟨some "a.js", some 2, some 3⟩ ∧
      (⟨some "index.js", some 5, some 9⟩ : CallSite) ∉ l :=
  capture_head_is_caller_and_own_frame_excluded ⟨none, 0⟩ _ _ [] (by decide)

/-- Claim C2: on every exit path (normal return or propagated failure)
the process-wide stack-formatting hook slot ends identity-equal to the
value it held before the call, including the no-hook-installed case
(the statement quantifies over every prior slot value, none included). -/
theorem capture_restores_hook (s : Host) (raw : Except HostFailure (List CallSite)) :
    (callsites s raw).finalState.prepareStackTrace = s.prepareStackTrace := rfl

/-- Claim C3: for every error value and every nonempty descriptor
list, the installed hook removes exactly the first element and returns
the shortened list, whose elements are the very values supplied. -/
theorem handler_removes_exactly_first (e : ErrVal) (x : CallSite) (xs : List CallSite) :
    prepareStackTraceHandler e (x :: xs) = xs := rfl

/-- Claim C4: when the raw stack is the frame of capture followed by
the D enclosing frames (innermost first) and then the rest, the
returned snapshot has length at least D and agrees with the enclosing
frames at indices 0 through D-1. -/
theorem capture_depth_property (s : Host) (capFrame : CallSite)
    (enclosing rest : List CallSite) (D : Nat) (hD : enclosing.length = D) :
    ∃ l, (callsites s (.ok (capFrame :: (enclosing ++ rest)))).result = .ok l ∧
      D ≤ l.length ∧ ∀ i, i < D → l[i]? = enclosing[i]? := by
  subst hD
  refine ⟨enclosing ++ rest, rfl, ?_, ?_⟩
  · rw [List.length_append]
    exact Nat.le_add_right _ _
  · intro i hi
    exact List.getElem?_append_left hi

/-- Witness for C4 at depth 2 with a concrete raw stack. -/
theorem capture_depth_property_witness :
    ∃ l, (callsites ⟨some (Hook.thirdParty 7), 3⟩
        (.ok (⟨some "i.js", some 1, some 1⟩ ::
          ([⟨some "a.js", some 2, some 3⟩, ⟨some "b.js", some 4, some 5⟩] ++
            [⟨some "c.js", some 6, some 7⟩])))).result = .ok l ∧
      2 ≤ l.length ∧ ∀ i, i < 2 →
        l[i]? = [(⟨some "a.js", some 2, some 3⟩ : CallSite),
          ⟨some "b.js", some 4, some 5⟩][i]? :=
  capture_depth_property ⟨some (Hook.thirdParty 7), 3⟩ _ _ _ 2 rfl

/-- Claim C5: the original variant (per-call closure, non-mutating
slice) and the optimized variant (pre-allocated handler, in-place
shift) return the same snapshot from the same host state and the same
raw stack, and leave the hook slot in the same state: two
implementations of one operation. -/
theorem variants_equivalent (s : Host) (raw : Except HostFailure (List CallSite)) :
    (callsitesOriginal s raw).result = (callsites s raw).result ∧
    (callsitesOriginal s raw).finalState.prepareStackTrace =
      (callsites s raw).finalState.prepareStackTrace := by
  refine ⟨?_, rfl⟩
  cases raw with
  | error err => rfl
  | ok frames =>
      show Except.ok (jsSliceOne frames) = Except.ok (jsShift frames)
      rw [jsShift_eq_drop]
      rfl

/-- Claim C6: n sequential invocations from the same call site (same
raw stack) yield n snapshots of equal length with equal per-index file
name, line number and column number. -/
theorem capture_deterministic (n : Nat) (s : Host) (frames : List CallSite)
    (i j : Nat) (hi : i < n) (hj : j < n) :
    ∃ li lj,
      (callsitesN n s (.ok frames)).1[i]? = some (.ok li) ∧
      (callsitesN n s (.ok frames)).1[j]? = some (.ok lj) ∧
      li.length = lj.length ∧
      ∀ k : Nat,
        (li[k]?).map CallSite.fileName = (lj[k]?).map CallSite.fileName ∧
        (li[k]?).map CallSite.lineNumber = (lj[k]?).map CallSite.lineNumber ∧
        (li[k]?).map CallSite.columnNumber = (lj[k]?).map CallSite.columnNumber := by
  refine ⟨jsShift frames, jsShift frames, ?_, ?_, rfl, fun k => ⟨rfl, rfl, rfl⟩⟩
  · rw [callsitesN_fst, callsites_result_ok]
    exact List.getElem?_replicate_of_lt hi
  · rw [callsitesN_fst, callsites_result_ok]
    exact List.getElem?_replicate_of_lt hj

/-- Witness for C6 with two sequential calls on a concrete stack. -/
theorem capture_deterministic_witness :
    ∃ li lj,
      (callsitesN 2 ⟨none, 0⟩ (.ok [⟨some "i.js", some 1, some 1⟩,
        ⟨some "a.js", some 2, some 3⟩])).1[0]? = some (.ok li) ∧
      (callsitesN 2 ⟨none, 0⟩ (.ok [⟨some "i.js", some 1, some 1⟩,
        ⟨some "a.js", some 2, some 3⟩])).1[1]? = some (.ok lj) ∧
      li.length = lj.length ∧
      ∀ k : Nat,
        (li[k]?).map CallSite.fileName = (lj[k]?).map CallSite.fileName ∧
        (li[k]?).map CallSite.lineNumber = (lj[k]?).map CallSite.lineNumber ∧
        (li[k]?).map CallSite.columnNumber = (lj[k]?).map CallSite.columnNumber :=
  capture_deterministic 2 ⟨none, 0⟩ _ 0 1 (by decide) (by decide)

/-- Claim C7: the hook value written into the slot is the same
identity-equal function across every pair of invocations of the
optimized variant: the single module-level handler, never re-created. -/
theorem capture_hook_preallocated (s t : Host)
    (raw1 raw2 : Except HostFailure (List CallSite)) :
    (callsites s raw1).installedHook = (callsites t raw2).installedHook := rfl

/-- Claim C8: a failure raised during stack materialization is
propagated unchanged, neither caught nor wrapped, and only the
restoration of the hook slot runs before it escapes (the final host
state equals the initial one). -/
theorem capture_propagates_failure (s : Host) (e : HostFailure) :
    (callsites s (.error e)).result = .error e ∧
    (callsites s (.error e)).finalState = s :=
  ⟨rfl, rfl⟩

/-- Claim C9: the hook is total on its list argument: on an empty
descriptor list the in-place removal is a no-op, the hook returns the
still-empty list, and capture returns an empty snapshot rather than
raising. -/
theorem handler_total_on_empty (e : ErrVal) (s : Host) :
    prepareStackTraceHandler e [] = [] ∧
    (callsites s (.ok [])).result = .ok ([] : List CallSite) :=
  ⟨rfl, rfl⟩

/-- Claim C10: the hook result does not depend on the error-value
argument: for any two error values and any descriptor list the results
coincide. -/
theorem handler_ignores_error_argument (e1 e2 : ErrVal) (l : List CallSite) :
    prepareStackTraceHandler e1 l = prepareStackTraceHandler e2 l := rfl

end Callsites
